import Mathlib

/-!
Shallow embedding of the two-layer client cache subsystem of the
getfjell sample application, together with proofs of the specified
properties.

Each definition mirrors one function or module-level behaviour of the
TypeScript source:
  * the cross-cache invalidation coordinator wired up in
    src/client/cache/index.ts (the subscription handlers),
  * the cache construction options of WidgetCache.ts, WidgetTypeCache.ts
    and WidgetComponentCache.ts,
  * the getCacheStats utilities of the three cache modules,
  * the initializeCaches memoization and the synchronous accessors of
    src/client/cache/ClientCache.ts,
  * the CacheInitializer.initializeApp startup sequence,
  * the onCreate validator and preCreate hooks of WidgetLib.ts and
    WidgetComponentLib.ts,
  * a query-signature normalization modelled from the specification
    (the implementation lives in the external fjell cache framework).
-/

/-! ### Cross-cache invalidation coordinator (src/client/cache/index.ts) -/

/-- Entity types of the three caches the application constructs. -/
inductive SourceType where
  | widget
  | widgetType
  | widgetComponent
deriving DecidableEq, Repr

/-- Event types emitted by a cache subscription. -/
inductive CacheEventType where
  | item_created
  | item_updated
  | item_removed
deriving DecidableEq, Repr

/-- The payload item carried by a cache event; only the id is consulted
by the coordinator handlers. -/
structure EventItem where
  id : String
deriving DecidableEq, Repr

/-- A cache event as delivered to subscription handlers: a type tag and
an optional item. -/
structure CacheEvent where
  type : CacheEventType
  item : Option EventItem
deriving DecidableEq, Repr

/-- Observable effects of a coordinator handler: an informational
console.log message, a console.warn message, or a clearQueryResults call
on the named cache. The handlers in index.ts only ever produce info
messages and clear calls. -/
inductive CoordAction where
  | info (msg : String)
  | warn (msg : String)
  | clearQueryResults (target : SourceType)
deriving DecidableEq, Repr

/-- Truthiness of event.item?.id in JavaScript: the item is present and
its id is a non-empty string. -/
def eventItemIdTruthy (e : CacheEvent) : Bool :=
  match e.item with
  | some i => !(i.id == "")
  | none => false

/-- Rendering of the event type name used in the console.log template
strings of index.ts. -/
def eventTypeName (t : CacheEventType) : String :=
  match t with
  | .item_created => "item_created"
  | .item_updated => "item_updated"
  | .item_removed => "item_removed"

/-- First widgetCache.subscribe handler of index.ts: logs every
created/updated/removed widget event. -/
def widgetSubscriptionOne (e : CacheEvent) : List CoordAction :=
  if e.type == .item_created || e.type == .item_updated || e.type == .item_removed then
    [CoordAction.info ("Widget " ++ eventTypeName e.type ++ " detected")]
  else []

/-- The widgetTypeCache.subscribe handler of index.ts: logs every
created/updated/removed event and, on item_removed with a truthy item
id, clears the widget cache query results. -/
def widgetTypeSubscription (e : CacheEvent) : List CoordAction :=
  if e.type == .item_created || e.type == .item_updated || e.type == .item_removed then
    [CoordAction.info ("WidgetType " ++ eventTypeName e.type ++ " detected")] ++
      (if e.type == .item_removed && eventItemIdTruthy e then
        [CoordAction.clearQueryResults .widget]
      else [])
  else []

/-- Second widgetCache.subscribe handler of index.ts: on item_removed
with a truthy item id, logs and clears the widgetComponent cache query
results. -/
def widgetSubscriptionTwo (e : CacheEvent) : List CoordAction :=
  if e.type == .item_removed && eventItemIdTruthy e then
    [CoordAction.info "Widget removed, invalidating related components",
      CoordAction.clearQueryResults .widgetComponent]
  else []

/-- The widgetComponentCache.subscribe handler of index.ts: logs every
created/updated/removed event. -/
def widgetComponentSubscription (e : CacheEvent) : List CoordAction :=
  if e.type == .item_created || e.type == .item_updated || e.type == .item_removed then
    [CoordAction.info ("WidgetComponent " ++ eventTypeName e.type ++ " detected")]
  else []

/-- All coordinator actions produced when the cache of the given source
type emits an event, in subscription registration order. -/
def coordinatorActions (src : SourceType) (e : CacheEvent) : List CoordAction :=
  match src with
  | .widget => widgetSubscriptionOne e ++ widgetSubscriptionTwo e
  | .widgetType => widgetTypeSubscription e
  | .widgetComponent => widgetComponentSubscription e

/-- Query/facet partitions of the three caches: each is an association
list from query signature to cached key list. -/
structure SystemState where
  widgetQueries : List (String × List String)
  widgetTypeQueries : List (String × List String)
  widgetComponentQueries : List (String × List String)
deriving DecidableEq, Repr

/-- The query partition of one cache. -/
def queryPartition (s : SystemState) (t : SourceType) : List (String × List String) :=
  match t with
  | .widget => s.widgetQueries
  | .widgetType => s.widgetTypeQueries
  | .widgetComponent => s.widgetComponentQueries

/-- Cached lookup of a query signature against one cache partition;
none is a cache miss. -/
def lookupQuery (s : SystemState) (t : SourceType) (sig : String) : Option (List String) :=
  (queryPartition s t).lookup sig

/-- Effect of clearQueryResults on the named cache partition. -/
def clearPartition (s : SystemState) (t : SourceType) : SystemState :=
  match t with
  | .widget => { s with widgetQueries := [] }
  | .widgetType => { s with widgetTypeQueries := [] }
  | .widgetComponent => { s with widgetComponentQueries := [] }

/-- Applying a single coordinator action to the system state; log
messages do not change cache state. -/
def applyAction (s : SystemState) (a : CoordAction) : SystemState :=
  match a with
  | .clearQueryResults t => clearPartition s t
  | .info _ => s
  | .warn _ => s

/-- Dispatching an event from one cache through the coordinator: all
subscription handlers run in order and their effects are applied. -/
def dispatchEvent (src : SourceType) (e : CacheEvent) (s : SystemState) : SystemState :=
  (coordinatorActions src e).foldl applyAction s

/-! ### Cache construction options (WidgetCache.ts, WidgetTypeCache.ts,
WidgetComponentCache.ts) -/

/-- The twoLayer block of the cache options: TTLs in seconds plus the
debug toggle. -/
structure TwoLayerConfig where
  itemTTL : Nat
  queryTTL : Nat
  facetTTL : Nat
  debug : Bool
deriving DecidableEq, Repr

/-- The indexedDBConfig block of the cache options. -/
structure IndexedDBConfig where
  dbName : String
  version : Nat
  storeName : String
deriving DecidableEq, Repr

/-- The evictionConfig block of the cache options. -/
structure EvictionConfig where
  type : String
deriving DecidableEq, Repr

/-- The full option object returned by the createCacheOptions helpers of
the three cache modules. -/
structure CacheOptions where
  cacheType : String
  indexedDBConfig : IndexedDBConfig
  enableDebugLogging : Bool
  autoSync : Bool
  maxRetries : Nat
  retryDelay : Nat
  ttl : Nat
  evictionConfig : EvictionConfig
  twoLayer : TwoLayerConfig
deriving DecidableEq, Repr

namespace WidgetCacheModule

/-- createCacheOptions of src/client/cache/WidgetCache.ts. -/
def createCacheOptions (dbName storeName : String) : CacheOptions :=
  { cacheType := "indexedDB"
    indexedDBConfig := { dbName := dbName, version := 1, storeName := storeName }
    enableDebugLogging := true
    autoSync := true
    maxRetries := 5
    retryDelay := 2000
    ttl := 900000
    evictionConfig := { type := "lru" }
    twoLayer := { itemTTL := 900, queryTTL := 300, facetTTL := 60, debug := true } }

end WidgetCacheModule

namespace WidgetTypeCacheModule

/-- createCacheOptions of src/client/cache/WidgetTypeCache.ts. -/
def createCacheOptions (dbName storeName : String) : CacheOptions :=
  { cacheType := "indexedDB"
    indexedDBConfig := { dbName := dbName, version := 1, storeName := storeName }
    enableDebugLogging := true
    autoSync := true
    maxRetries := 5
    retryDelay := 2000
    ttl := 900000
    evictionConfig := { type := "lru" }
    twoLayer := { itemTTL := 900, queryTTL := 300, facetTTL := 60, debug := true } }

end WidgetTypeCacheModule

namespace WidgetComponentCacheModule

/-- createCacheOptions of src/client/cache/WidgetComponentCache.ts. -/
def createCacheOptions (dbName storeName : String) : CacheOptions :=
  { cacheType := "indexedDB"
    indexedDBConfig := { dbName := dbName, version := 1, storeName := storeName }
    enableDebugLogging := true
    autoSync := true
    maxRetries := 5
    retryDelay := 2000
    ttl := 900000
    evictionConfig := { type := "lru" }
    twoLayer := { itemTTL := 900, queryTTL := 300, facetTTL := 60, debug := true } }

end WidgetComponentCacheModule

/-- The option objects the application actually passes to createCache
for its three caches. -/
def widgetCacheOptions : CacheOptions :=
  WidgetCacheModule.createCacheOptions "WidgetAppCache_Widgets" "widgets"

/-- Options passed when constructing the widgetType cache. -/
def widgetTypeCacheOptions : CacheOptions :=
  WidgetTypeCacheModule.createCacheOptions "WidgetAppCache_WidgetTypes" "widgetTypes"

/-- Options passed when constructing the widgetComponent cache. -/
def widgetComponentCacheOptions : CacheOptions :=
  WidgetComponentCacheModule.createCacheOptions "FjellTestCache_Components" "widget_components"

/-! ### getCacheStats utilities of the three cache modules -/

/-- Result of cacheMap.getCurrentSize(). -/
structure SizeInfo where
  itemCount : Nat
  sizeBytes : Nat
deriving DecidableEq, Repr

/-- The queryMetadata block of getTwoLayerStats(): live entry counts per
completeness class. -/
structure QueryMetadata where
  complete : Nat
  partial_ : Nat
deriving DecidableEq, Repr

/-- Result of cacheMap.getTwoLayerStats(). -/
structure TwoLayerStats where
  queryMetadata : QueryMetadata
deriving DecidableEq, Repr

/-- Observable surface of a cache map as consulted by getCacheStats:
the current size, and, when the implementation exposes it, the
getTwoLayerStats function (modelled as an optional value, none when the
function is absent from the cache map object). -/
structure CacheMapView where
  getCurrentSize : SizeInfo
  getTwoLayerStats : Option TwoLayerStats
deriving DecidableEq, Repr

/-- Statistics object returned by the getCacheStats utilities. -/
structure CacheStats where
  itemCount : Nat
  queryCount : Nat
  facetCount : Nat
deriving DecidableEq, Repr

namespace WidgetCacheModule

/-- widgetCacheUtils.getCacheStats of WidgetCache.ts, as a function of
the observable cache map state. -/
def getCacheStats (cm : CacheMapView) : CacheStats :=
  let sizeInfo := cm.getCurrentSize
  match cm.getTwoLayerStats with
  | some tls =>
    { itemCount := sizeInfo.itemCount
      queryCount := tls.queryMetadata.complete
      facetCount := tls.queryMetadata.partial_ }
  | none =>
    { itemCount := sizeInfo.itemCount, queryCount := 0, facetCount := 0 }

end WidgetCacheModule

namespace WidgetTypeCacheModule

/-- widgetTypeCacheUtils.getCacheStats of WidgetTypeCache.ts. -/
def getCacheStats (cm : CacheMapView) : CacheStats :=
  let sizeInfo := cm.getCurrentSize
  match cm.getTwoLayerStats with
  | some tls =>
    { itemCount := sizeInfo.itemCount
      queryCount := tls.queryMetadata.complete
      facetCount := tls.queryMetadata.partial_ }
  | none =>
    { itemCount := sizeInfo.itemCount, queryCount := 0, facetCount := 0 }

end WidgetTypeCacheModule

namespace WidgetComponentCacheModule

/-- widgetComponentCacheUtils.getCacheStats of WidgetComponentCache.ts. -/
def getCacheStats (cm : CacheMapView) : CacheStats :=
  let sizeInfo := cm.getCurrentSize
  match cm.getTwoLayerStats with
  | some tls =>
    { itemCount := sizeInfo.itemCount
      queryCount := tls.queryMetadata.complete
      facetCount := tls.queryMetadata.partial_ }
  | none =>
    { itemCount := sizeInfo.itemCount, queryCount := 0, facetCount := 0 }

end WidgetComponentCacheModule

/-! ### ClientCache.ts module state and initializeCaches -/

/-- Module-level mutable state of src/client/cache/ClientCache.ts: the
three lazily constructed cache instances (identified by opaque ids),
the _isInitializing flag and the memoized _initPromise (identified by a
promise id). -/
structure ClientCacheState where
  widgetCache : Option Nat
  widgetTypeCache : Option Nat
  widgetComponentCache : Option Nat
  isInitializing : Bool
  initPromise : Option Nat
deriving DecidableEq, Repr

/-- State of the module when it is first loaded: no caches, no
in-flight initialization. -/
def clientCacheInit : ClientCacheState :=
  { widgetCache := none, widgetTypeCache := none, widgetComponentCache := none
    isInitializing := false, initPromise := none }

/-- The condition of the first branch of initializeCaches:
_isInitializing or all three cache instances already set. -/
def alreadyInitializedOrInitializing (s : ClientCacheState) : Bool :=
  s.isInitializing ||
    (s.widgetCache.isSome && s.widgetTypeCache.isSome && s.widgetComponentCache.isSome)

/-- What a call to initializeCaches does synchronously before its first
suspension: either it awaits an existing promise (first branch, state
untouched) or it sets _isInitializing, creates a new initialization
promise and memoizes it. -/
inductive InitCallOutcome where
  | awaitExisting (p : Option Nat)
  | started (p : Nat)
deriving DecidableEq, Repr

/-- The synchronous prefix of initializeCaches (ClientCache.ts). In the
single-threaded event-loop model this prefix runs atomically: the guard
is checked, and on the start path _isInitializing is set to true and
_initPromise is assigned before the async body first suspends (the
body's first await). fresh is the id of the newly created promise. -/
def initializeCachesEntry (s : ClientCacheState) (fresh : Nat) :
    ClientCacheState × InitCallOutcome :=
  if alreadyInitializedOrInitializing s then
    (s, .awaitExisting s.initPromise)
  else
    ({ s with isInitializing := true, initPromise := some fresh }, .started fresh)

/-- Completion of the initialization body in the success case: all
three cache module imports resolved, the instances were stored, and the
finally clause reset _isInitializing; the memoized _initPromise is kept. -/
def initCompleteSuccess (s : ClientCacheState) (w wt wc : Nat) : ClientCacheState :=
  { s with widgetCache := some w, widgetTypeCache := some wt
           widgetComponentCache := some wc, isInitializing := false }

/-- Completion of the initialization body in the failure case: the
catch clause resets _isInitializing and clears the memoized
_initPromise (the cache fields keep whatever prefix of the three
imports had already succeeded, here left unchanged relative to the
failure point). -/
def initCompleteFailure (s : ClientCacheState) : ClientCacheState :=
  { s with isInitializing := false, initPromise := none }

/-- Event-loop steps of the ClientCache module paired with a counter of
how many initialization bodies have been started. A call step runs the
synchronous prefix of initializeCaches; a success step completes the
in-flight body. Failure completions are deliberately absent: the
at-most-once property is claimed for executions in which
initialization does not fail. -/
inductive ClientCacheStep :
    ClientCacheState × Nat → ClientCacheState × Nat → Prop where
  | callAwait (s : ClientCacheState) (n fresh : Nat)
      (h : alreadyInitializedOrInitializing s = true) :
      ClientCacheStep (s, n) (s, n)
  | callStart (s : ClientCacheState) (n fresh : Nat)
      (h : alreadyInitializedOrInitializing s = false) :
      ClientCacheStep (s, n)
        ({ s with isInitializing := true, initPromise := some fresh }, n + 1)
  | succeed (s : ClientCacheState) (n w wt wc : Nat)
      (h : s.isInitializing = true) :
      ClientCacheStep (s, n) (initCompleteSuccess s w wt wc, n)

/-- States reachable from the freshly loaded module by failure-free
event-loop steps. -/
inductive ClientCacheReach : ClientCacheState × Nat → Prop where
  | init : ClientCacheReach (clientCacheInit, 0)
  | step {a b : ClientCacheState × Nat} :
      ClientCacheReach a → ClientCacheStep a b → ClientCacheReach b

/-! ### Synchronous cache accessors of ClientCache.ts -/

/-- getWidgetCacheSync: throws when the widget cache instance is not
yet populated, otherwise returns it. -/
def getWidgetCacheSync (s : ClientCacheState) : Except String Nat :=
  match s.widgetCache with
  | none => .error "Widget cache not yet initialized. Call initializeCaches() first."
  | some c => .ok c

/-- getWidgetTypeCacheSync: throws when the widget type cache instance
is not yet populated, otherwise returns it. -/
def getWidgetTypeCacheSync (s : ClientCacheState) : Except String Nat :=
  match s.widgetTypeCache with
  | none => .error "Widget type cache not yet initialized. Call initializeCaches() first."
  | some c => .ok c

/-- getWidgetComponentCacheSync: throws when the widget component cache
instance is not yet populated, otherwise returns it. -/
def getWidgetComponentCacheSync (s : ClientCacheState) : Except String Nat :=
  match s.widgetComponentCache with
  | none => .error "Widget component cache not yet initialized. Call initializeCaches() first."
  | some c => .ok c

/-! ### CacheInitializer.initializeApp (src/client/components/CacheInitializer.tsx) -/

/-- Environment a run of initializeApp executes against: whether
initializeCaches (or anything before the promise wait) throws, which of
the two cache maps expose an initializationPromise, whether those
promises eventually reject, and after how many milliseconds they
settle. -/
structure InitializerEnv where
  initializeCachesThrows : Bool
  widgetHasInitPromise : Bool
  widgetTypeHasInitPromise : Bool
  promisesReject : Bool
  promiseSettleMs : Nat
deriving DecidableEq, Repr

/-- Outcome of the Promise.race between the gathered initialization
promises and the 10 second timeout promise. -/
inductive RaceOutcome where
  | resolved
  | rejected
  | timedOut
deriving DecidableEq, Repr

/-- Observable result of one run of initializeApp: whether the
component was marked initialized (setIsInitialized(true)), the error
state, how long it waited on the durable-store initialization promises,
and whether a console.warn about a failed or timed-out initialization
was emitted. -/
structure InitializerResult where
  initialized : Bool
  errorState : Option String
  waitedOnPromisesMs : Nat
  warnedDegraded : Bool
deriving DecidableEq, Repr

/-- Semantics of Promise.race([Promise.all(initPromises), timeout]):
whichever settles first wins; the timeout rejects after 10000 ms. -/
def raceWithTimeout (env : InitializerEnv) : RaceOutcome :=
  if env.promiseSettleMs < 10000 then
    if env.promisesReject then .rejected else .resolved
  else .timedOut

/-- The initializeApp effect of CacheInitializer.tsx. The outer try
awaits initializeCaches and then waits on the cache maps'
initializationPromise fields under a 10000 ms timeout; a timeout or
rejection is caught, logged with console.warn, and execution continues;
any error reaching the outer catch sets the error state but still
marks the component initialized so the application renders. -/
def initializeApp (env : InitializerEnv) : InitializerResult :=
  if env.initializeCachesThrows then
    { initialized := true
      errorState := some "Failed to initialize caches"
      waitedOnPromisesMs := 0
      warnedDegraded := false }
  else
    let hasPromises := env.widgetHasInitPromise || env.widgetTypeHasInitPromise
    if hasPromises then
      let outcome := raceWithTimeout env
      { initialized := true
        errorState := none
        waitedOnPromisesMs := min env.promiseSettleMs 10000
        warnedDegraded := outcome == .rejected || outcome == .timedOut }
    else
      { initialized := true
        errorState := none
        waitedOnPromisesMs := 0
        warnedDegraded := false }

/-! ### Widget library validators and hooks (src/lib/WidgetLib.ts,
src/lib/WidgetComponentLib.ts) -/

/-- A widget type row as seen by widgetTypeModel.findByPk. -/
structure WidgetTypeRow where
  code : String
  isActive : Bool
deriving DecidableEq, Repr

/-- Database environment consulted by the widget onCreate validator:
widgetTypeModel.findByPk. -/
structure WidgetLibEnv where
  findWidgetTypeByPk : String → Option WidgetTypeRow

/-- Properties of a widget creation request; optional fields model
properties that may be absent (undefined) in JavaScript. -/
structure WidgetCreateProps where
  widgetTypeId : Option String
  name : Option String
  data : Option String
deriving DecidableEq, Repr

/-- validators.onCreate of createWidgetLibrary (WidgetLib.ts), with
each throw modelled as an error result and the checks performed in
source order. The JavaScript guard on a field f reads !f || f.trim()
empty, and the empty string is itself falsy, so the falsy check is
modelled as a separate equality test before the trim test. -/
def widgetOnCreate (env : WidgetLibEnv) (w : WidgetCreateProps) : Except String Bool :=
  match w.widgetTypeId with
  | none => .error "Widget type ID is required"
  | some tid =>
    if tid = "" then .error "Widget type ID is required"
    else if tid.trim = "" then .error "Widget type ID is required"
    else
      match env.findWidgetTypeByPk tid with
      | none => .error ("Widget type with ID " ++ tid ++ " does not exist")
      | some wt =>
        if !wt.isActive then
          .error ("Widget type " ++ wt.code ++ " is not active")
        else
          match w.name with
          | none => .error "Widget name is required"
          | some n =>
            if n = "" then .error "Widget name is required"
            else if n.trim = "" then .error "Widget name is required"
            else if n.length > 255 then
              .error "Widget name must be 255 characters or less"
            else .ok true

/-- Widget draft as the preCreate hook of WidgetLib.ts sees it: the
name is present (creation was validated), isActive may be absent. -/
structure WidgetDraft where
  name : String
  isActive : Option Bool
deriving DecidableEq, Repr

/-- hooks.preCreate of createWidgetLibrary (WidgetLib.ts): trims the
name and defaults isActive to true when it is undefined. -/
def widgetPreCreate (w : WidgetDraft) : WidgetDraft :=
  let w := { w with name := w.name.trim }
  match w.isActive with
  | none => { w with isActive := some true }
  | some _ => w

/-- Widget component draft as the preCreate hook of
WidgetComponentLib.ts sees it. -/
structure WidgetComponentDraft where
  name : String
  status : Option String
  priority : Option Int
deriving DecidableEq, Repr

/-- hooks.preCreate of createWidgetComponentLibrary
(WidgetComponentLib.ts): trims the name, defaults status to pending and
priority to 0 when they are undefined. -/
def widgetComponentPreCreate (c : WidgetComponentDraft) : WidgetComponentDraft :=
  let c := { c with name := c.name.trim }
  let c := match c.status with
    | none => { c with status := some "pending" }
    | some _ => c
  match c.priority with
  | none => { c with priority := some 0 }
  | some _ => c

/-- Modelled from the spec: the create pipeline of the fjell sequelize
library is not part of this repository; section 4.3 of the
specification fixes its order as validate via caller-supplied rules,
then call the remote create (the database write). The pipeline returns
the validation outcome together with the list of rows written. -/
def createWidgetPipeline (env : WidgetLibEnv) (w : WidgetCreateProps) :
    Except String Bool × List WidgetCreateProps :=
  match widgetOnCreate env w with
  | .error e => (.error e, [])
  | .ok v => (.ok v, [w])

/-! ### Query signature normalization -/

/-- Primitive query parameter values (the spec restricts parameters to
primitive, order-insensitively serialized values). -/
inductive QVal where
  | str (s : String)
  | int (n : Int)
  | bool (b : Bool)
deriving DecidableEq, Repr

/-- One location segment of a composite key scope: a key type tag and a
locator id. -/
structure LocationSegment where
  kt : String
  lk : String
deriving DecidableEq, Repr

/-- A query descriptor: query type name, parameter map (association
list) and, for composite-key types, the location scope. -/
structure QueryDescriptor where
  queryType : String
  params : List (String × QVal)
  locations : List LocationSegment
deriving DecidableEq, Repr

/-- Self-delimiting unary encoding of a natural number: n hash marks
followed by a colon. -/
def encNat (n : Nat) : List Char := List.replicate n '#' ++ [':']

/-- Length-prefixed encoding of a character list; the prefix makes the
encoding self-delimiting, so no character of the payload needs
escaping. -/
def encChars (cs : List Char) : List Char := encNat cs.length ++ cs

/-- Length-prefixed encoding of a string. -/
def encString (s : String) : List Char := encChars s.data

/-- Tagged encoding of a primitive parameter value. -/
def encQVal : QVal → List Char
  | .str s => 'S' :: encString s
  | .int (Int.ofNat n) => 'P' :: encNat n
  | .int (Int.negSucc n) => 'N' :: encNat n
  | .bool true => ['T']
  | .bool false => ['F']

/-- Encoding of one key/value parameter pair. -/
def encParam (p : String × QVal) : List Char := encString p.1 ++ encQVal p.2

/-- Encoding of one location segment. -/
def encLoc (l : LocationSegment) : List Char := encString l.kt ++ encString l.lk

/-- Count-prefixed encoding of a list of encodable elements. -/
def encListWith (enc : α → List Char) (xs : List α) : List Char :=
  encNat xs.length ++ (xs.map enc).flatten

/-- Complete encoding of a query descriptor: query type, then the
parameter list, then the location scope. -/
def encDescriptor (d : QueryDescriptor) : List Char :=
  encString d.queryType ++ encListWith encParam d.params ++ encListWith encLoc d.locations

/-- Decoder for the unary length prefix. -/
def decNat : List Char → Option (Nat × List Char)
  | [] => none
  | c :: rest =>
    if c = '#' then (decNat rest).map (fun p => (p.1 + 1, p.2))
    else if c = ':' then some (0, rest)
    else none

/-- Decoder for a length-prefixed character list. -/
def decChars (l : List Char) : Option (List Char × List Char) :=
  match decNat l with
  | some (n, r) => if n ≤ r.length then some (r.take n, r.drop n) else none
  | none => none

/-- Decoder for a length-prefixed string. -/
def decString (l : List Char) : Option (String × List Char) :=
  (decChars l).map (fun p => (String.mk p.1, p.2))

/-- Decoder for a tagged primitive value. -/
def decQVal : List Char → Option (QVal × List Char)
  | [] => none
  | c :: rest =>
    if c = 'S' then (decString rest).map (fun p => (.str p.1, p.2))
    else if c = 'P' then (decNat rest).map (fun p => (.int (Int.ofNat p.1), p.2))
    else if c = 'N' then (decNat rest).map (fun p => (.int (Int.negSucc p.1), p.2))
    else if c = 'T' then some (.bool true, rest)
    else if c = 'F' then some (.bool false, rest)
    else none

/-- Decoder for one parameter pair. -/
def decParam (l : List Char) : Option ((String × QVal) × List Char) :=
  match decString l with
  | some (k, r) =>
    match decQVal r with
    | some (v, r2) => some ((k, v), r2)
    | none => none
  | none => none

/-- Decoder for one location segment. -/
def decLoc (l : List Char) : Option (LocationSegment × List Char) :=
  match decString l with
  | some (kt, r) =>
    match decString r with
    | some (lk, r2) => some (⟨kt, lk⟩, r2)
    | none => none
  | none => none

/-- Decoder for exactly n consecutive elements. -/
def decListN (dec : List Char → Option (α × List Char)) :
    Nat → List Char → Option (List α × List Char)
  | 0, l => some ([], l)
  | n + 1, l =>
    match dec l with
    | some (x, r) =>
      match decListN dec n r with
      | some (xs, r2) => some (x :: xs, r2)
      | none => none
    | none => none

/-- Decoder for a count-prefixed list. -/
def decListWith (dec : List Char → Option (α × List Char)) (l : List Char) :
    Option (List α × List Char) :=
  match decNat l with
  | some (n, r) => decListN dec n r
  | none => none

/-- Decoder for a full query descriptor. -/
def decDescriptor (l : List Char) : Option (QueryDescriptor × List Char) :=
  match decString l with
  | some (qt, r1) =>
    match decListWith decParam r1 with
    | some (ps, r2) =>
      match decListWith decLoc r2 with
      | some (ls, r3) => some (⟨qt, ps, ls⟩, r3)
      | none => none
    | none => none
  | none => none

/-- Comparator sorting parameter pairs by key, as the canonical
sorted-keys serialization demands. -/
def paramKeyLE (a b : String × QVal) : Bool := decide (a.1 ≤ b.1)

/-- Canonical parameter order: sort the association list by key. -/
def canonicalizeParams (ps : List (String × QVal)) : List (String × QVal) :=
  ps.mergeSort paramKeyLE

/-- Canonical form of a descriptor. -/
def canonicalize (d : QueryDescriptor) : QueryDescriptor :=
  { d with params := canonicalizeParams d.params }

/-- Modelled from the spec: the query signature normalization. The
implementation lives in the external fjell cache framework, not in this
repository; section 3 of the specification requires a canonical,
order-independent serialization of the query type, the sorted parameter
map and the location scope in which distinct descriptors never collide.
The model sorts the parameters by key and then applies the
self-delimiting encoding above. -/
def normalizeQuery (d : QueryDescriptor) : String :=
  String.mk (encDescriptor (canonicalize d))

/-- A descriptor in canonical form: its parameter keys are strictly
increasing (sorted, no duplicate keys). -/
def CanonicalDesc (d : QueryDescriptor) : Prop :=
  d.params.Pairwise (fun a b => a.1 < b.1)

/-- Two descriptors are semantically identical when they denote the
same query: same query type, same location scope, and parameter maps
equal as finite maps (a key permutation with no duplicate keys). -/
def SemanticallyIdentical (d1 d2 : QueryDescriptor) : Prop :=
  d1.queryType = d2.queryType ∧ d1.locations = d2.locations ∧
    d1.params.Perm d2.params ∧ (d1.params.map Prod.fst).Nodup

/-- The unfiltered descriptor queryType all with empty params. -/
def descAllWidgets : QueryDescriptor :=
  { queryType := "all", params := [], locations := [] }

/-- The filtered descriptor queryType all with isActive true. -/
def descActiveWidgets : QueryDescriptor :=
  { queryType := "all", params := [("isActive", QVal.bool true)], locations := [] }

/-! ### Roundtrip lemmas for the signature encoding -/

theorem decNat_replicate (n : Nat) (rest : List Char) :
    decNat (List.replicate n '#' ++ ':' :: rest) = some (n, rest) := by
  induction n with
  | zero => simp [decNat]
  | succ k ih => simp [List.replicate_succ, decNat, ih]

theorem decNat_encNat (n : Nat) (rest : List Char) :
    decNat (encNat n ++ rest) = some (n, rest) := by
  simpa [encNat, List.append_assoc] using decNat_replicate n rest

theorem decChars_encChars (cs rest : List Char) :
    decChars (encChars cs ++ rest) = some (cs, rest) := by
  simp only [encChars, decChars, List.append_assoc, decNat_encNat]
  rw [if_pos (by simp), List.take_left, List.drop_left]

theorem decString_encString (s : String) (rest : List Char) :
    decString (encString s ++ rest) = some (s, rest) := by
  simp [decString, encString, decChars_encChars]

theorem decQVal_encQVal (v : QVal) (rest : List Char) :
    decQVal (encQVal v ++ rest) = some (v, rest) := by
  match v with
  | .str s => simp [encQVal, decQVal, decString_encString]
  | .int (Int.ofNat n) => simp [encQVal, decQVal, decNat_encNat]
  | .int (Int.negSucc n) => simp [encQVal, decQVal, decNat_encNat]
  | .bool true => simp [encQVal, decQVal]
  | .bool false => simp [encQVal, decQVal]

theorem decParam_encParam (p : String × QVal) (rest : List Char) :
    decParam (encParam p ++ rest) = some (p, rest) := by
  simp [decParam, encParam, List.append_assoc, decString_encString, decQVal_encQVal]

theorem decLoc_encLoc (l : LocationSegment) (rest : List Char) :
    decLoc (encLoc l ++ rest) = some (l, rest) := by
  simp [decLoc, encLoc, List.append_assoc, decString_encString]

theorem decListN_enc {α : Type} (dec : List Char → Option (α × List Char))
    (enc : α → List Char)
    (h : ∀ (x : α) (rest : List Char), dec (enc x ++ rest) = some (x, rest))
    (xs : List α) (rest : List Char) :
    decListN dec xs.length ((xs.map enc).flatten ++ rest) = some (xs, rest) := by
  induction xs with
  | nil => simp [decListN]
  | cons x tail ih =>
    simp only [List.map_cons, List.flatten_cons, List.length_cons, List.append_assoc]
    simp [decListN, h, ih]

theorem decListWith_enc {α : Type} (dec : List Char → Option (α × List Char))
    (enc : α → List Char)
    (h : ∀ (x : α) (rest : List Char), dec (enc x ++ rest) = some (x, rest))
    (xs : List α) (rest : List Char) :
    decListWith dec (encListWith enc xs ++ rest) = some (xs, rest) := by
  simp [decListWith, encListWith, List.append_assoc, decNat_encNat, decListN_enc dec enc h]

theorem decDescriptor_encDescriptor (d : QueryDescriptor) (rest : List Char) :
    decDescriptor (encDescriptor d ++ rest) = some (d, rest) := by
  simp [decDescriptor, encDescriptor, List.append_assoc, decString_encString,
    decListWith_enc decParam encParam decParam_encParam,
    decListWith_enc decLoc encLoc decLoc_encLoc]

theorem encDescriptor_injective {d1 d2 : QueryDescriptor}
    (h : encDescriptor d1 = encDescriptor d2) : d1 = d2 := by
  have h1 := decDescriptor_encDescriptor d1 []
  have h2 := decDescriptor_encDescriptor d2 []
  rw [h] at h1
  rw [h1] at h2
  exact congrArg Prod.fst (Option.some.inj h2)

/-! ### Canonical sorting lemmas for the parameter map -/

theorem paramKeyLE_trans (a b c : String × QVal)
    (hab : paramKeyLE a b) (hbc : paramKeyLE b c) : paramKeyLE a c := by
  simp only [paramKeyLE, decide_eq_true_eq] at hab hbc ⊢
  exact le_trans hab hbc

theorem paramKeyLE_total (a b : String × QVal) : paramKeyLE a b || paramKeyLE b a := by
  simp only [paramKeyLE, Bool.or_eq_true, decide_eq_true_eq]
  exact le_total a.1 b.1

theorem canonicalizeParams_perm (ps : List (String × QVal)) :
    (canonicalizeParams ps).Perm ps :=
  List.mergeSort_perm ps paramKeyLE

theorem canonicalizeParams_sorted (ps : List (String × QVal)) :
    (canonicalizeParams ps).Pairwise (fun a b => paramKeyLE a b = true) := by
  simpa using List.sorted_mergeSort paramKeyLE_trans paramKeyLE_total ps

theorem pairwise_keyLT_of_le_nodup {l : List (String × QVal)}
    (hle : l.Pairwise (fun a b => paramKeyLE a b = true))
    (hnd : (l.map Prod.fst).Nodup) :
    l.Pairwise (fun a b => a.1 < b.1) := by
  have hne : l.Pairwise (fun a b => a.1 ≠ b.1) := List.pairwise_map.mp hnd
  exact (hle.and hne).imp
    (fun h => lt_of_le_of_ne (by simpa [paramKeyLE] using h.1) h.2)

theorem strictKeySorted_unique {l1 l2 : List (String × QVal)}
    (hp : l1.Perm l2)
    (h1 : l1.Pairwise (fun a b => a.1 < b.1))
    (h2 : l2.Pairwise (fun a b => a.1 < b.1)) : l1 = l2 := by
  haveI : IsAntisymm (String × QVal) (fun a b => a.1 < b.1) :=
    ⟨fun a b hab hba => absurd hba (lt_asymm hab)⟩
  exact List.eq_of_perm_of_sorted hp h1 h2

theorem canonicalizeParams_of_canonical {ps : List (String × QVal)}
    (h : ps.Pairwise (fun a b => a.1 < b.1)) : canonicalizeParams ps = ps :=
  List.mergeSort_of_sorted (h.imp (fun hlt => by simp [paramKeyLE, le_of_lt hlt]))

theorem canonicalize_of_canonical {d : QueryDescriptor} (h : CanonicalDesc d) :
    canonicalize d = d := by
  simp [canonicalize, canonicalizeParams_of_canonical h]

theorem normalizeQuery_eq_iff {d1 d2 : QueryDescriptor} :
    normalizeQuery d1 = normalizeQuery d2 ↔ canonicalize d1 = canonicalize d2 := by
  constructor
  · intro h
    exact encDescriptor_injective (congrArg String.data h)
  · intro h
    simp [normalizeQuery, h]

/-! ### Claim theorems -/

/-- C1: an item_removed event from the widgetType cache whose item has a
non-empty id makes the coordinator clear the widget cache query/facet
partition, and an item_removed event from the widget cache whose item
has a non-empty id makes it clear the widgetComponent cache partition;
in both cases a subsequent query against the dependent cache is a cache
miss. -/
theorem removal_cascade_invalidates_dependent_caches
    (e : CacheEvent) (s : SystemState)
    (hty : e.type = CacheEventType.item_removed)
    (hid : ∃ i, e.item = some i ∧ i.id ≠ "") :
    CoordAction.clearQueryResults SourceType.widget ∈
        coordinatorActions SourceType.widgetType e ∧
      CoordAction.clearQueryResults SourceType.widgetComponent ∈
        coordinatorActions SourceType.widget e ∧
      (∀ sig, lookupQuery (dispatchEvent SourceType.widgetType e s)
        SourceType.widget sig = none) ∧
      (∀ sig, lookupQuery (dispatchEvent SourceType.widget e s)
        SourceType.widgetComponent sig = none) := by
  obtain ⟨i, hi, hne⟩ := hid
  have htruthy : eventItemIdTruthy e = true := by
    simp [eventItemIdTruthy, hi, hne]
  have hwt : coordinatorActions SourceType.widgetType e =
      [CoordAction.info "WidgetType item_removed detected",
        CoordAction.clearQueryResults SourceType.widget] := by
    simp [coordinatorActions, widgetTypeSubscription, hty, htruthy, eventTypeName]
  have hw : coordinatorActions SourceType.widget e =
      [CoordAction.info "Widget item_removed detected",
        CoordAction.info "Widget removed, invalidating related components",
        CoordAction.clearQueryResults SourceType.widgetComponent] := by
    simp [coordinatorActions, widgetSubscriptionOne, widgetSubscriptionTwo, hty,
      htruthy, eventTypeName]
  refine ⟨by simp [hwt], by simp [hw], ?_, ?_⟩
  · intro sig
    simp [dispatchEvent, hwt, applyAction, clearPartition, lookupQuery, queryPartition]
  · intro sig
    simp [dispatchEvent, hw, applyAction, clearPartition, lookupQuery, queryPartition]

/-- Witness for C1 at a concrete removal event and a concrete populated
cache state. -/
theorem removal_cascade_invalidates_dependent_caches_witness :
    CoordAction.clearQueryResults SourceType.widget ∈
        coordinatorActions SourceType.widgetType
          { type := CacheEventType.item_removed, item := some { id := "wt1" } } ∧
      CoordAction.clearQueryResults SourceType.widgetComponent ∈
        coordinatorActions SourceType.widget
          { type := CacheEventType.item_removed, item := some { id := "wt1" } } ∧
      (∀ sig, lookupQuery
        (dispatchEvent SourceType.widgetType
          { type := CacheEventType.item_removed, item := some { id := "wt1" } }
          { widgetQueries := [("all", ["w1"])], widgetTypeQueries := [("all", ["wt1"])]
            widgetComponentQueries := [("all", ["c1"])] })
        SourceType.widget sig = none) ∧
      (∀ sig, lookupQuery
        (dispatchEvent SourceType.widget
          { type := CacheEventType.item_removed, item := some { id := "wt1" } }
          { widgetQueries := [("all", ["w1"])], widgetTypeQueries := [("all", ["wt1"])]
            widgetComponentQueries := [("all", ["c1"])] })
        SourceType.widgetComponent sig = none) :=
  removal_cascade_invalidates_dependent_caches
    { type := CacheEventType.item_removed, item := some { id := "wt1" } }
    { widgetQueries := [("all", ["w1"])], widgetTypeQueries := [("all", ["wt1"])]
      widgetComponentQueries := [("all", ["c1"])] }
    rfl ⟨{ id := "wt1" }, rfl, by decide⟩

/-- The C2 claim as stated: for every (event source type, event type)
pair, with any event item, the coordinator either performs a
clearQueryResults call on a dependent cache or logs a warning. -/
def RuleTableClearsOrWarns : Prop :=
  ∀ (src : SourceType) (t : CacheEventType) (it : Option EventItem),
    (∃ tgt, CoordAction.clearQueryResults tgt ∈ coordinatorActions src { type := t, item := it }) ∨
    (∃ m, CoordAction.warn m ∈ coordinatorActions src { type := t, item := it })

/-- C2 counterexample: a widget item_created event neither clears any
dependent cache nor logs a warning (the handlers only call console.log),
so the claim as stated fails. -/
theorem ruleTable_clearsOrWarns_false : ¬RuleTableClearsOrWarns := by
  intro h
  rcases h SourceType.widget CacheEventType.item_created (some { id := "w1" }) with
    ⟨tgt, hm⟩ | ⟨m, hm⟩ <;>
    simp [coordinatorActions, widgetSubscriptionOne, widgetSubscriptionTwo,
      eventItemIdTruthy, eventTypeName] at hm

/-- C2 amended: every (source type, event type) pair the system defines
produces at least one coordinator action, and in particular always logs
an informational console.log message (the removal pairs additionally
clear a dependent cache); no pair is a silent no-op, but the logging
uses console.log rather than a warning. -/
theorem ruleTable_no_silent_noop :
    ∀ (src : SourceType) (t : CacheEventType) (it : Option EventItem),
      (∃ m, CoordAction.info m ∈ coordinatorActions src { type := t, item := it }) ∧
      coordinatorActions src { type := t, item := it } ≠ [] := by
  intro src t it
  cases src <;> cases t <;>
    constructor <;>
    simp [coordinatorActions, widgetSubscriptionOne, widgetSubscriptionTwo,
      widgetTypeSubscription, widgetComponentSubscription, eventTypeName]

/-- C3: on canonical descriptors (sorted, duplicate-free parameter
keys) the normalization is injective — distinct descriptors, whether
they differ in queryType, params or location scope, get distinct
signatures; semantically identical descriptors (parameter maps equal up
to order) normalize to the same signature; and the concrete pair
queryType all with empty params versus isActive true gets distinct
signatures, hence distinct cache entries. -/
theorem normalizeQuery_no_clobbering :
    (∀ d1 d2 : QueryDescriptor, CanonicalDesc d1 → CanonicalDesc d2 → d1 ≠ d2 →
      normalizeQuery d1 ≠ normalizeQuery d2) ∧
      (∀ d1 d2 : QueryDescriptor, SemanticallyIdentical d1 d2 →
        normalizeQuery d1 = normalizeQuery d2) ∧
      normalizeQuery descAllWidgets ≠ normalizeQuery descActiveWidgets := by
  refine ⟨?_, ?_, ?_⟩
  · intro d1 d2 h1 h2 hne heq
    apply hne
    have hc := normalizeQuery_eq_iff.mp heq
    rwa [canonicalize_of_canonical h1, canonicalize_of_canonical h2] at hc
  · rintro d1 d2 ⟨hqt, hloc, hperm, hnd⟩
    apply normalizeQuery_eq_iff.mpr
    have hperm1 : (canonicalizeParams d1.params).Perm (canonicalizeParams d2.params) :=
      ((canonicalizeParams_perm d1.params).trans hperm).trans
        (canonicalizeParams_perm d2.params).symm
    have hnd1 : ((canonicalizeParams d1.params).map Prod.fst).Nodup :=
      (((canonicalizeParams_perm d1.params).map Prod.fst).nodup_iff).mpr hnd
    have hnd2 : ((canonicalizeParams d2.params).map Prod.fst).Nodup :=
      ((hperm1.map Prod.fst).nodup_iff).mp hnd1
    have hps : canonicalizeParams d1.params = canonicalizeParams d2.params :=
      strictKeySorted_unique hperm1
        (pairwise_keyLT_of_le_nodup (canonicalizeParams_sorted d1.params) hnd1)
        (pairwise_keyLT_of_le_nodup (canonicalizeParams_sorted d2.params) hnd2)
    obtain ⟨qt1, p1, l1⟩ := d1
    obtain ⟨qt2, p2, l2⟩ := d2
    simp only at hqt hloc
    simp [canonicalize, hqt, hloc, hps]
  · have h1 : canonicalize descAllWidgets = descAllWidgets := by
      simp [canonicalize, canonicalizeParams, descAllWidgets]
    have h2 : canonicalize descActiveWidgets = descActiveWidgets := by
      simp [canonicalize, canonicalizeParams, descActiveWidgets]
    simp only [normalizeQuery, h1, h2]
    decide

/-- Witness for C3: the injectivity half applied to the two concrete
canonical descriptors of the claim. -/
theorem normalizeQuery_no_clobbering_witness :
    normalizeQuery descAllWidgets ≠ normalizeQuery descActiveWidgets :=
  normalizeQuery_no_clobbering.1 descAllWidgets descActiveWidgets
    (by simp [CanonicalDesc, descAllWidgets])
    (by simp [CanonicalDesc, descActiveWidgets])
    (by decide)

/-- C4: every cache configuration the application constructs supplies
the twoLayer TTL options at construction with itemTTL 900, queryTTL 300
and facetTTL 60 seconds, so facetTTL ≤ queryTTL ≤ itemTTL, for all
three caches and for any database/store names. -/
theorem cacheOptions_twoLayer_ttls :
    (∀ dbName storeName, (WidgetCacheModule.createCacheOptions dbName storeName).twoLayer =
      { itemTTL := 900, queryTTL := 300, facetTTL := 60, debug := true }) ∧
      (∀ dbName storeName, (WidgetTypeCacheModule.createCacheOptions dbName storeName).twoLayer =
        { itemTTL := 900, queryTTL := 300, facetTTL := 60, debug := true }) ∧
      (∀ dbName storeName,
        (WidgetComponentCacheModule.createCacheOptions dbName storeName).twoLayer =
          { itemTTL := 900, queryTTL := 300, facetTTL := 60, debug := true }) ∧
      widgetCacheOptions.twoLayer.facetTTL ≤ widgetCacheOptions.twoLayer.queryTTL ∧
      widgetCacheOptions.twoLayer.queryTTL ≤ widgetCacheOptions.twoLayer.itemTTL ∧
      widgetTypeCacheOptions.twoLayer.facetTTL ≤ widgetTypeCacheOptions.twoLayer.queryTTL ∧
      widgetTypeCacheOptions.twoLayer.queryTTL ≤ widgetTypeCacheOptions.twoLayer.itemTTL ∧
      widgetComponentCacheOptions.twoLayer.facetTTL ≤
        widgetComponentCacheOptions.twoLayer.queryTTL ∧
      widgetComponentCacheOptions.twoLayer.queryTTL ≤
        widgetComponentCacheOptions.twoLayer.itemTTL := by
  refine ⟨fun _ _ => rfl, fun _ _ => rfl, fun _ _ => rfl, ?_, ?_, ?_, ?_, ?_, ?_⟩ <;> decide

/-- C7: for each entity-type cache, getCacheStats takes itemCount from
getCurrentSize, queryCount from the two-layer query metadata complete
count and facetCount from the partial count, and reports 0 for both
when the cache map exposes no getTwoLayerStats function. -/
theorem getCacheStats_reports_twoLayer_counts :
    ∀ cm : CacheMapView,
      ((WidgetCacheModule.getCacheStats cm).itemCount = cm.getCurrentSize.itemCount ∧
        (WidgetTypeCacheModule.getCacheStats cm).itemCount = cm.getCurrentSize.itemCount ∧
        (WidgetComponentCacheModule.getCacheStats cm).itemCount = cm.getCurrentSize.itemCount) ∧
      (∀ tls, cm.getTwoLayerStats = some tls →
        WidgetCacheModule.getCacheStats cm =
          { itemCount := cm.getCurrentSize.itemCount
            queryCount := tls.queryMetadata.complete
            facetCount := tls.queryMetadata.partial_ } ∧
        WidgetTypeCacheModule.getCacheStats cm =
          { itemCount := cm.getCurrentSize.itemCount
            queryCount := tls.queryMetadata.complete
            facetCount := tls.queryMetadata.partial_ } ∧
        WidgetComponentCacheModule.getCacheStats cm =
          { itemCount := cm.getCurrentSize.itemCount
            queryCount := tls.queryMetadata.complete
            facetCount := tls.queryMetadata.partial_ }) ∧
      (cm.getTwoLayerStats = none →
        WidgetCacheModule.getCacheStats cm =
          { itemCount := cm.getCurrentSize.itemCount, queryCount := 0, facetCount := 0 } ∧
        WidgetTypeCacheModule.getCacheStats cm =
          { itemCount := cm.getCurrentSize.itemCount, queryCount := 0, facetCount := 0 } ∧
        WidgetComponentCacheModule.getCacheStats cm =
          { itemCount := cm.getCurrentSize.itemCount, queryCount := 0, facetCount := 0 }) := by
  intro cm
  obtain ⟨sz, tl⟩ := cm
  cases tl <;>
    simp [WidgetCacheModule.getCacheStats, WidgetTypeCacheModule.getCacheStats,
      WidgetComponentCacheModule.getCacheStats]

/-- C9: the preCreate hooks apply defaults — a widget without isActive
is stored with isActive true, a component without status with status
pending and without priority with priority 0, and both hooks trim the
name of surrounding whitespace. -/
theorem preCreate_hooks_apply_defaults (w : WidgetDraft) (c : WidgetComponentDraft)
    (hw : w.isActive = none) (hs : c.status = none) (hp : c.priority = none) :
    (widgetPreCreate w).isActive = some true ∧
      (widgetPreCreate w).name = w.name.trim ∧
      (widgetComponentPreCreate c).status = some "pending" ∧
      (widgetComponentPreCreate c).priority = some 0 ∧
      (widgetComponentPreCreate c).name = c.name.trim := by
  obtain ⟨wn, wa⟩ := w
  obtain ⟨cn, cs, cp⟩ := c
  simp only at hw hs hp
  subst hw hs hp
  simp [widgetPreCreate, widgetComponentPreCreate]

/-- Witness for C9 at concrete drafts lacking the optional fields. -/
theorem preCreate_hooks_apply_defaults_witness :
    (widgetPreCreate { name := "  Submit  ", isActive := none }).isActive = some true ∧
      (widgetPreCreate { name := "  Submit  ", isActive := none }).name =
        ("  Submit  " : String).trim ∧
      (widgetComponentPreCreate
        { name := " Label ", status := none, priority := none }).status = some "pending" ∧
      (widgetComponentPreCreate
        { name := " Label ", status := none, priority := none }).priority = some 0 ∧
      (widgetComponentPreCreate
        { name := " Label ", status := none, priority := none }).name =
        (" Label " : String).trim :=
  preCreate_hooks_apply_defaults
    { name := "  Submit  ", isActive := none }
    { name := " Label ", status := none, priority := none }
    rfl rfl rfl

/-- C10: each synchronous cache accessor throws when invoked before
initializeCaches has populated the corresponding cache instance — in
particular on the freshly loaded module state — and whenever it returns
successfully it returns exactly the populated cache instance. -/
theorem syncAccessors_require_initialization :
    ∀ s : ClientCacheState,
      (s.widgetCache = none → ∃ msg, getWidgetCacheSync s = .error msg) ∧
      (∀ c, getWidgetCacheSync s = .ok c → s.widgetCache = some c) ∧
      (s.widgetTypeCache = none → ∃ msg, getWidgetTypeCacheSync s = .error msg) ∧
      (∀ c, getWidgetTypeCacheSync s = .ok c → s.widgetTypeCache = some c) ∧
      (s.widgetComponentCache = none → ∃ msg, getWidgetComponentCacheSync s = .error msg) ∧
      (∀ c, getWidgetComponentCacheSync s = .ok c → s.widgetComponentCache = some c) := by
  intro s
  obtain ⟨wc, wtc, wcc, init, p⟩ := s
  cases wc <;> cases wtc <;> cases wcc <;>
    simp [getWidgetCacheSync, getWidgetTypeCacheSync, getWidgetComponentCacheSync]

theorem clientCacheReach_invariant {p : ClientCacheState × Nat}
    (h : ClientCacheReach p) :
    p.2 ≤ 1 ∧ (p.2 = 1 → alreadyInitializedOrInitializing p.1 = true) ∧
      (p.2 = 0 → p.1.isInitializing = false) := by
  induction h with
  | init => simp [clientCacheInit, alreadyInitializedOrInitializing]
  | step hr hs ih =>
    obtain ⟨h1, h2, h3⟩ := ih
    cases hs with
    | callAwait s n fresh hg => exact ⟨h1, h2, h3⟩
    | callStart s n fresh hg =>
      have hn : n = 0 := by
        by_contra hne
        have : n = 1 := by omega
        rw [h2 this] at hg
        cases hg
      subst hn
      refine ⟨by omega, fun _ => ?_, fun h0 => by omega⟩
      simp [alreadyInitializedOrInitializing]
    | succeed s n w wt wc hinit =>
      have hn : n = 1 := by
        by_contra hne
        have : n = 0 := by omega
        rw [h3 this] at hinit
        cases hinit
      subst hn
      refine ⟨by omega, fun _ => ?_, fun h0 => by omega⟩
      simp [alreadyInitializedOrInitializing, initCompleteSuccess]

/-- C5: a call to initializeCaches made while initialization is in
flight, or after it completed, leaves the module state unchanged and
awaits the memoized promise instead of starting a second
initialization; along any failure-free execution at most one
initialization body is ever started; and the memoized promise is kept
by a successful completion and reset only by a failing one. -/
theorem initializeCaches_memoizes_inflight :
    (∀ (s : ClientCacheState) (fresh : Nat), s.isInitializing = true →
      initializeCachesEntry s fresh = (s, InitCallOutcome.awaitExisting s.initPromise)) ∧
      (∀ (s : ClientCacheState) (fresh : Nat),
        s.widgetCache.isSome = true → s.widgetTypeCache.isSome = true →
        s.widgetComponentCache.isSome = true →
        initializeCachesEntry s fresh = (s, InitCallOutcome.awaitExisting s.initPromise)) ∧
      (∀ (s : ClientCacheState) (n : Nat), ClientCacheReach (s, n) → n ≤ 1) ∧
      (∀ (s : ClientCacheState) (w wt wc : Nat),
        (initCompleteSuccess s w wt wc).initPromise = s.initPromise) ∧
      (∀ s : ClientCacheState, (initCompleteFailure s).initPromise = none ∧
        (initCompleteFailure s).isInitializing = false) := by
  refine ⟨?_, ?_, ?_, fun s w wt wc => rfl, fun s => ⟨rfl, rfl⟩⟩
  · intro s fresh h
    simp [initializeCachesEntry, alreadyInitializedOrInitializing, h]
  · intro s fresh h1 h2 h3
    simp [initializeCachesEntry, alreadyInitializedOrInitializing, h1, h2, h3]
  · intro s n h
    exact (clientCacheReach_invariant h).1

/-- Witness for C5: a second call arriving while a concrete in-flight
initialization is pending awaits the memoized promise and changes
nothing. -/
theorem initializeCaches_memoizes_inflight_witness :
    initializeCachesEntry
      { widgetCache := none, widgetTypeCache := none, widgetComponentCache := none
        isInitializing := true, initPromise := some 7 } 3 =
      ({ widgetCache := none, widgetTypeCache := none, widgetComponentCache := none
         isInitializing := true, initPromise := some 7 },
        InitCallOutcome.awaitExisting (some 7)) :=
  initializeCaches_memoizes_inflight.1
    { widgetCache := none, widgetTypeCache := none, widgetComponentCache := none
      isInitializing := true, initPromise := some 7 } 3 rfl

/-- C6: initializeApp always marks the application initialized (it
renders rather than blocking or crashing), waits at most 10000 ms on
the durable-store initialization promises, warns and proceeds degraded
when that wait times out or the promises reject, and records the error
when cache initialization itself throws. -/
theorem initializeApp_bounded_wait_and_renders :
    ∀ env : InitializerEnv,
      (initializeApp env).initialized = true ∧
      (initializeApp env).waitedOnPromisesMs ≤ 10000 ∧
      (env.initializeCachesThrows = false →
        (env.widgetHasInitPromise || env.widgetTypeHasInitPromise) = true →
        raceWithTimeout env ≠ RaceOutcome.resolved →
        (initializeApp env).warnedDegraded = true) ∧
      (env.initializeCachesThrows = true →
        (initializeApp env).errorState.isSome = true) := by
  intro env
  obtain ⟨thr, wip, wtip, rej, ms⟩ := env
  cases thr
  · refine ⟨?_, ?_, ?_, ?_⟩
    · cases wip <;> cases wtip <;> simp [initializeApp]
    · cases wip <;> cases wtip <;>
        simp [initializeApp, Nat.min_le_right]
    · intro _ hp hout
      have : raceWithTimeout ⟨false, wip, wtip, rej, ms⟩ = RaceOutcome.rejected ∨
          raceWithTimeout ⟨false, wip, wtip, rej, ms⟩ = RaceOutcome.timedOut := by
        cases h : raceWithTimeout ⟨false, wip, wtip, rej, ms⟩
        · exact absurd h hout
        · exact Or.inl rfl
        · exact Or.inr rfl
      simp only [initializeApp]
      rcases this with h | h <;>
        cases wip <;> cases wtip <;> simp_all [initializeApp]
    · intro h
      exact nomatch h
  · refine ⟨rfl, by simp [initializeApp], ?_, fun _ => rfl⟩
    intro h
    exact absurd h (by simp)

/-- Witness for C6: a run whose durable-store promises only settle
after 20 seconds is cut off, warned about and still renders. -/
theorem initializeApp_bounded_wait_and_renders_witness :
    (initializeApp
      { initializeCachesThrows := false, widgetHasInitPromise := true
        widgetTypeHasInitPromise := false, promisesReject := false
        promiseSettleMs := 20000 }).initialized = true ∧
      (initializeApp
        { initializeCachesThrows := false, widgetHasInitPromise := true
          widgetTypeHasInitPromise := false, promisesReject := false
          promiseSettleMs := 20000 }).warnedDegraded = true := by
  have h := initializeApp_bounded_wait_and_renders
    { initializeCachesThrows := false, widgetHasInitPromise := true
      widgetTypeHasInitPromise := false, promisesReject := false
      promiseSettleMs := 20000 }
  exact ⟨h.1, h.2.2.1 rfl rfl (by decide)⟩

/-- C8: the caller-supplied onCreate validator rejects a widget
creation whenever the referenced widget type does not exist, the
referenced widget type is inactive, the name is missing or empty, or
the name exceeds 255 characters; and a rejected create reaches the
database with no write (the validator runs before the remote create in
the pipeline the specification fixes). -/
theorem widgetOnCreate_rejects_before_write :
    ∀ (env : WidgetLibEnv) (w : WidgetCreateProps),
      ((∀ t, w.widgetTypeId = some t → env.findWidgetTypeByPk t = none) ∨
        (∃ t wt, w.widgetTypeId = some t ∧ env.findWidgetTypeByPk t = some wt ∧
          wt.isActive = false) ∨
        w.name = none ∨ w.name = some "" ∨
        (∃ n, w.name = some n ∧ n.length > 255)) →
      (∃ msg, widgetOnCreate env w = Except.error msg) ∧
      (createWidgetPipeline env w).2 = [] := by
  intro env w h
  have herr : ∃ msg, widgetOnCreate env w = Except.error msg := by
    obtain ⟨tid, nm, dt⟩ := w
    cases tid with
    | none => exact ⟨"Widget type ID is required", rfl⟩
    | some t =>
      by_cases ht0 : t = ""
      · exact ⟨"Widget type ID is required", by simp [widgetOnCreate, ht0]⟩
      · by_cases htrim : t.trim = ""
        · exact ⟨"Widget type ID is required", by simp [widgetOnCreate, ht0, htrim]⟩
        · cases hfind : env.findWidgetTypeByPk t with
        | none =>
          exact ⟨"Widget type with ID " ++ t ++ " does not exist",
            by simp [widgetOnCreate, ht0, htrim, hfind]⟩
        | some wt =>
          by_cases hact : wt.isActive = true
          · have hname : nm = none ∨ nm = some "" ∨ (∃ n, nm = some n ∧ n.length > 255) := by
              rcases h with h1 | ⟨t2, wt2, ht2, hf2, hin2⟩ | h3 | h4 | h5
              · exact absurd (h1 t rfl) (by simp [hfind])
              · simp only at ht2
                obtain rfl : t2 = t := (Option.some.inj ht2).symm
                rw [hfind] at hf2
                injection hf2 with hww
                subst hww
                simp [hact] at hin2
              · exact Or.inl h3
              · exact Or.inr (Or.inl h4)
              · exact Or.inr (Or.inr h5)
            rcases hname with h1 | h2 | ⟨n, hn, hlen⟩
            · subst h1
              exact ⟨"Widget name is required",
                by simp [widgetOnCreate, ht0, htrim, hfind, hact]⟩
            · subst h2
              exact ⟨"Widget name is required",
                by simp [widgetOnCreate, ht0, htrim, hfind, hact]⟩
            · subst hn
              by_cases hn0 : n = ""
              · exact ⟨"Widget name is required",
                  by simp [widgetOnCreate, ht0, htrim, hfind, hact, hn0]⟩
              · by_cases hnt : n.trim = ""
                · exact ⟨"Widget name is required",
                    by simp [widgetOnCreate, ht0, htrim, hfind, hact, hn0, hnt]⟩
                · exact ⟨"Widget name must be 255 characters or less",
                    by simp [widgetOnCreate, ht0, htrim, hfind, hact, hn0, hnt, hlen]⟩
          · exact ⟨"Widget type " ++ wt.code ++ " is not active",
              by simp [widgetOnCreate, ht0, htrim, hfind, hact]⟩
  obtain ⟨msg, hmsg⟩ := herr
  exact ⟨⟨msg, hmsg⟩, by simp [createWidgetPipeline, hmsg]⟩

/-- Witness for C8: creating a widget whose referenced widget type is
absent from the database is rejected with no write. -/
theorem widgetOnCreate_rejects_before_write_witness :
    (∃ msg, widgetOnCreate { findWidgetTypeByPk := fun _ => none }
      { widgetTypeId := some "t1", name := some "Submit", data := none } =
        Except.error msg) ∧
      (createWidgetPipeline { findWidgetTypeByPk := fun _ => none }
        { widgetTypeId := some "t1", name := some "Submit", data := none }).2 = [] :=
  widgetOnCreate_rejects_before_write { findWidgetTypeByPk := fun _ => none }
    { widgetTypeId := some "t1", name := some "Submit", data := none }
    (Or.inl (fun _ _ => rfl))

/-- Witness for C7 at a concrete cache map with and without the
two-layer stats function. -/
theorem getCacheStats_reports_twoLayer_counts_witness :
    WidgetCacheModule.getCacheStats
      { getCurrentSize := { itemCount := 5, sizeBytes := 100 }
        getTwoLayerStats := some { queryMetadata := { complete := 3, partial_ := 2 } } } =
      { itemCount := 5, queryCount := 3, facetCount := 2 } ∧
      WidgetCacheModule.getCacheStats
        { getCurrentSize := { itemCount := 5, sizeBytes := 100 }
          getTwoLayerStats := none } =
        { itemCount := 5, queryCount := 0, facetCount := 0 } :=
  ⟨((getCacheStats_reports_twoLayer_counts
      { getCurrentSize := { itemCount := 5, sizeBytes := 100 }
        getTwoLayerStats := some { queryMetadata := { complete := 3, partial_ := 2 } } }).2.1
      { queryMetadata := { complete := 3, partial_ := 2 } } rfl).1,
    ((getCacheStats_reports_twoLayer_counts
      { getCurrentSize := { itemCount := 5, sizeBytes := 100 }
        getTwoLayerStats := none }).2.2 rfl).1⟩

/-- Witness for C10: on the freshly loaded module state all three
synchronous accessors throw. -/
theorem syncAccessors_require_initialization_witness :
    (∃ msg, getWidgetCacheSync clientCacheInit = .error msg) ∧
      (∃ msg, getWidgetTypeCacheSync clientCacheInit = .error msg) ∧
      (∃ msg, getWidgetComponentCacheSync clientCacheInit = .error msg) :=
  ⟨(syncAccessors_require_initialization clientCacheInit).1 rfl,
    (syncAccessors_require_initialization clientCacheInit).2.2.1 rfl,
    (syncAccessors_require_initialization clientCacheInit).2.2.2.2.1 rfl⟩
